import Mathlib

/-!
Verification of the `python-gateway` edge-gateway core against its
natural-language specification.

The Python source (`src/main.py`, `src/ble_man/manager.py`,
`src/ble_man/uploader.py`) is shallowly embedded below:

* timestamps and durations are modelled as exact rationals (seconds);
  Python `datetime`/`timedelta` arithmetic is exact at microsecond
  resolution, and none of the verified properties depend on sub-second
  rounding of the clock;
* Python dicts keyed by MAC address are modelled as functions
  `String → Option _` (`None` absence = `Option.none`);
* Python sets of MAC addresses are modelled as `Finset String`;
* Python floats are modelled as exact rationals (and, for the battery
  curve which uses a real exponent `0.6`, as real numbers); the verified
  properties are branch/clamp/ordering facts that are insensitive to the
  last-ulp behaviour of binary floating point;
* exceptions that the source catches locally are modelled by total
  functions over an oracle of attempt outcomes.
-/

/-! ### Alarm engine (src/main.py, SensorMonitorApp.run, lines 92-125)

Configuration fields mirror `SensorMonitorApp.__init__` / `on_config_update`;
durations are in seconds (`min_duration_after_start = timedelta(minutes=5)`,
`resend_alarm_interval = timedelta(minutes=60)`). -/

structure AlarmCfg where
  max_alert_threshold : ℚ
  min_alert_threshold : ℚ
  min_duration_after_start : ℚ
  resend_alarm_interval : ℚ
  active_alarm : Bool

/-- Default configuration values from `SensorMonitorApp.__init__`. -/
def defaultAlarmCfg : AlarmCfg :=
  ⟨60, -40, 5 * 60, 60 * 60, false⟩

/-- The per-device alarm bookkeeping of `SensorMonitorApp`:
`over_threshold_start` and `last_alert_sent` are dicts MAC → datetime,
`active_alert_macs` is a set of MACs. -/
structure AlarmSt where
  over_threshold_start : String → Option ℚ
  last_alert_sent : String → Option ℚ
  active_alert_macs : Finset String

/-- An element of `alerts_to_send` (src/main.py lines 115-119). -/
structure AlertEvent where
  mac : String
  temperature : ℚ
  duration_minutes : ℤ
  deriving DecidableEq

/-- Python `int()` truncates toward zero. -/
def pyInt (q : ℚ) : ℤ :=
  if 0 ≤ q then ⌊q⌋ else ⌈q⌉

/-- One device's pass through the alarm block of the cycle loop
(src/main.py lines 103-125), given the cycle timestamp `now` and the
device's decoded temperature.  Returns the updated state and the alert
event appended to `alerts_to_send`, if any. -/
def alarmStep (cfg : AlarmCfg) (now : ℚ) (mac : String) (temp : ℚ)
    (st : AlarmSt) : AlarmSt × Option AlertEvent :=
  if cfg.active_alarm then
    if temp > cfg.max_alert_threshold ∨ temp < cfg.min_alert_threshold then
      -- out of range: start tracking if not already (lines 105-106)
      let start := (st.over_threshold_start mac).getD now
      let overStart' : String → Option ℚ :=
        fun m => if m = mac then some start else st.over_threshold_start m
      let duration := now - start
      if duration ≥ cfg.min_duration_after_start then
        let active' := insert mac st.active_alert_macs
        match st.last_alert_sent mac with
        | none =>
            (⟨overStart',
              fun m => if m = mac then some now else st.last_alert_sent m,
              active'⟩,
             some ⟨mac, temp, pyInt (duration / 60)⟩)
        | some lastSent =>
            if now - lastSent ≥ cfg.resend_alarm_interval then
              (⟨overStart',
                fun m => if m = mac then some now else st.last_alert_sent m,
                active'⟩,
               some ⟨mac, temp, pyInt (duration / 60)⟩)
            else
              (⟨overStart', st.last_alert_sent, active'⟩, none)
      else
        (⟨overStart', st.last_alert_sent, st.active_alert_macs⟩, none)
    else
      -- in range (lines 121-125): delete tracking start, drop from the
      -- active set; `last_alert_sent` is NOT touched by the source.
      (⟨fun m => if m = mac then none else st.over_threshold_start m,
        st.last_alert_sent,
        st.active_alert_macs.erase mac⟩, none)
  else
    (st, none)

/-- The `for d in data` fold of the cycle loop over all readings
(src/main.py lines 94-125), accumulating `alerts_to_send` in order. -/
def processReadings (cfg : AlarmCfg) (now : ℚ) :
    List (String × ℚ) → AlarmSt → AlarmSt × List AlertEvent
  | [], st => (st, [])
  | (mac, temp) :: rest, st =>
      let p := alarmStep cfg now mac temp st
      let q := processReadings cfg now rest p.1
      (q.1, match p.2 with
            | some a => a :: q.2
            | none => q.2)

/-- Shared characterisation of the in-range branch of `alarmStep`
(src/main.py lines 121-125): the breach start is deleted, the MAC leaves
the active-alert set, no event is emitted, and `last_alert_sent` is left
exactly as it was. -/
theorem alarmStep_in_range (cfg : AlarmCfg) (now : ℚ) (mac : String)
    (temp : ℚ) (st : AlarmSt)
    (hact : cfg.active_alarm = true)
    (hmax : temp ≤ cfg.max_alert_threshold)
    (hmin : cfg.min_alert_threshold ≤ temp) :
    alarmStep cfg now mac temp st =
      (⟨fun m => if m = mac then none else st.over_threshold_start m,
        st.last_alert_sent,
        st.active_alert_macs.erase mac⟩, none) := by
  unfold alarmStep
  rw [hact]
  simp only [if_true]
  rw [if_neg]
  push_neg
  exact ⟨hmax, hmin⟩

/-- The scenario configuration used by the spec's AlarmEngine test
properties: the `__init__` defaults (`max=60`, `min=-40`,
`min_duration=5min`, `resend=60min`) with `active_alarm` pushed true. -/
def alarmCfgActive : AlarmCfg :=
  ⟨60, -40, 300, 3600, true⟩

/-- A state mid-alert for device "AA": breach tracked since time 0,
last alert sent at time 100, currently in the active-alert set. -/
def stMidAlert : AlarmSt :=
  ⟨fun m => if m = "AA" then some 0 else none,
   fun m => if m = "AA" then some 100 else none,
   {"AA"}⟩

/-- C1 counterexample: at time 200 device "AA" reads 50 °C (in range).
The source (src/main.py lines 121-125) deletes `over_threshold_start`
and drops the MAC from `active_alert_macs`, but `last_alert_sent` is
*not* cleared — it still holds `some 100` — contradicting the claim that
the in-range transition clears `last_alert_sent`. -/
theorem in_range_leaves_last_alert_sent :
    (alarmStep alarmCfgActive 200 "AA" 50 stMidAlert).1.last_alert_sent "AA"
        ≠ none ∧
    (alarmStep alarmCfgActive 200 "AA" 50 stMidAlert).1.last_alert_sent "AA"
        = some 100 ∧
    (alarmStep alarmCfgActive 200 "AA" 50 stMidAlert).1.over_threshold_start "AA"
        = none ∧
    "AA" ∉ (alarmStep alarmCfgActive 200 "AA" 50 stMidAlert).1.active_alert_macs := by
  refine ⟨?_, ?_, ?_, ?_⟩ <;> norm_num [alarmStep, alarmCfgActive, stMidAlert]
  simp

/-- C1 (amended): for every cycle in which a successfully-read device's
temperature is within `[min_threshold, max_threshold]` (with
`active_alarm` true), the transition clears that device's
`over_threshold_since` and removes it from the ActiveAlertSet, even
mid-breach, and emits no event; `last_alert_sent` is left unchanged
(the source never clears it). -/
theorem in_range_clears_breach_not_last_alert (cfg : AlarmCfg) (now : ℚ)
    (mac : String) (temp : ℚ) (st : AlarmSt)
    (hact : cfg.active_alarm = true)
    (hmax : temp ≤ cfg.max_alert_threshold)
    (hmin : cfg.min_alert_threshold ≤ temp) :
    (alarmStep cfg now mac temp st).1.over_threshold_start mac = none ∧
    mac ∉ (alarmStep cfg now mac temp st).1.active_alert_macs ∧
    (alarmStep cfg now mac temp st).1.last_alert_sent = st.last_alert_sent ∧
    (alarmStep cfg now mac temp st).2 = none := by
  rw [alarmStep_in_range cfg now mac temp st hact hmax hmin]
  refine ⟨by simp, Finset.not_mem_erase mac _, rfl, rfl⟩

/-- C1 witness: the amended theorem applied to the concrete mid-alert
state at 50 °C. -/
theorem in_range_clears_breach_not_last_alert_witness :
    (alarmStep alarmCfgActive 200 "AA" 50 stMidAlert).1.over_threshold_start "AA"
        = none ∧
    "AA" ∉ (alarmStep alarmCfgActive 200 "AA" 50 stMidAlert).1.active_alert_macs ∧
    (alarmStep alarmCfgActive 200 "AA" 50 stMidAlert).1.last_alert_sent
        = stMidAlert.last_alert_sent ∧
    (alarmStep alarmCfgActive 200 "AA" 50 stMidAlert).2 = none :=
  in_range_clears_breach_not_last_alert alarmCfgActive 200 "AA" 50 stMidAlert
    rfl (by norm_num [alarmCfgActive]) (by norm_num [alarmCfgActive])

/-- C3: with `active_alarm` true, thresholds `max=60, min=-40`,
`min_duration_after_start = 5 min`, `resend_interval = 60 min`, a device
read at 70 °C: (1) the cycle in which the breach starts (time `t0`)
records `over_threshold_start = t0` and emits no alert; (2) any cycle at
time `t < t0 + 5 min` emits no alert and preserves the pending state;
(3) the first cycle at time `t ≥ t0 + 5 min` (no alert yet sent) emits
exactly one alert event and sets `last_alert_sent = t`; (4) once an
alert was sent at `t1`, no cycle at time `t` with `t − t1 < 60 min`
emits another alert. -/
theorem alarm_debounce_single_fire_and_resend_gate (mac : String)
    (st : AlarmSt) (t0 t1 t : ℚ) :
    (st.over_threshold_start mac = none →
      (alarmStep alarmCfgActive t0 mac 70 st).2 = none ∧
      (alarmStep alarmCfgActive t0 mac 70 st).1.over_threshold_start mac = some t0 ∧
      (alarmStep alarmCfgActive t0 mac 70 st).1.last_alert_sent mac
          = st.last_alert_sent mac) ∧
    (st.over_threshold_start mac = some t0 → st.last_alert_sent mac = none →
     t < t0 + 300 →
      (alarmStep alarmCfgActive t mac 70 st).2 = none ∧
      (alarmStep alarmCfgActive t mac 70 st).1.over_threshold_start mac = some t0 ∧
      (alarmStep alarmCfgActive t mac 70 st).1.last_alert_sent mac = none) ∧
    (st.over_threshold_start mac = some t0 → st.last_alert_sent mac = none →
     t0 + 300 ≤ t →
      (alarmStep alarmCfgActive t mac 70 st).2
          = some ⟨mac, 70, pyInt ((t - t0) / 60)⟩ ∧
      (alarmStep alarmCfgActive t mac 70 st).1.last_alert_sent mac = some t ∧
      mac ∈ (alarmStep alarmCfgActive t mac 70 st).1.active_alert_macs) ∧
    (st.over_threshold_start mac = some t0 → st.last_alert_sent mac = some t1 →
     t - t1 < 3600 →
      (alarmStep alarmCfgActive t mac 70 st).2 = none) := by
  refine ⟨?_, ?_, ?_, ?_⟩
  · intro h0
    norm_num [alarmStep, alarmCfgActive, h0]
  · intro h0 hl ht
    have hd : ¬ (t - t0 ≥ (300 : ℚ)) := by linarith
    norm_num [alarmStep, alarmCfgActive, h0, hl, hd]
  · intro h0 hl ht
    have hd : t - t0 ≥ (300 : ℚ) := by linarith
    norm_num [alarmStep, alarmCfgActive, h0, hl, hd]
  · intro h0 hl ht
    have hr : ¬ (t - t1 ≥ (3600 : ℚ)) := by linarith
    by_cases hd : t - t0 ≥ (300 : ℚ) <;>
      norm_num [alarmStep, alarmCfgActive, h0, hl, hd, hr]

/-- A pending-breach state for device "AA": breach tracked since time 0,
no alert sent yet. -/
def stPending : AlarmSt :=
  ⟨fun m => if m = "AA" then some 0 else none, fun _ => none, ∅⟩

/-- A post-alert state for device "AA": breach tracked since time 0,
alert sent at time 360. -/
def stAlerted : AlarmSt :=
  ⟨fun m => if m = "AA" then some 0 else none,
   fun m => if m = "AA" then some 360 else none,
   {"AA"}⟩

/-- C3 witness: the theorem instantiated on concrete cycles — breach
start at `t0 = 0`, a quiet cycle at `t = 240` (4 min), the alert firing
at `t = 360` (6 min), and the resend gate holding at `t = 3000`. -/
theorem alarm_debounce_single_fire_and_resend_gate_witness :
    ((alarmStep alarmCfgActive 0 "AA" 70 ⟨fun _ => none, fun _ => none, ∅⟩).2
        = none ∧
     (alarmStep alarmCfgActive 0 "AA" 70
        ⟨fun _ => none, fun _ => none, ∅⟩).1.over_threshold_start "AA"
        = some 0 ∧
     (alarmStep alarmCfgActive 0 "AA" 70
        ⟨fun _ => none, fun _ => none, ∅⟩).1.last_alert_sent "AA"
        = (⟨fun _ => none, fun _ => none, ∅⟩ : AlarmSt).last_alert_sent "AA") ∧
    ((alarmStep alarmCfgActive 240 "AA" 70 stPending).2 = none) ∧
    ((alarmStep alarmCfgActive 360 "AA" 70 stPending).2
        = some ⟨"AA", 70, pyInt ((360 - 0) / 60)⟩ ∧
     (alarmStep alarmCfgActive 360 "AA" 70 stPending).1.last_alert_sent "AA"
        = some 360) ∧
    ((alarmStep alarmCfgActive 3000 "AA" 70 stAlerted).2 = none) :=
  ⟨(alarm_debounce_single_fire_and_resend_gate "AA"
      ⟨fun _ => none, fun _ => none, ∅⟩ 0 0 0).1 rfl,
   ((alarm_debounce_single_fire_and_resend_gate "AA" stPending 0 0 240).2.1
      rfl rfl (by norm_num)).1,
   ⟨((alarm_debounce_single_fire_and_resend_gate "AA" stPending 0 0 360).2.2.1
      rfl rfl (by norm_num)).1,
    ((alarm_debounce_single_fire_and_resend_gate "AA" stPending 0 0 360).2.2.1
      rfl rfl (by norm_num)).2.1⟩,
   (alarm_debounce_single_fire_and_resend_gate "AA" stAlerted 0 360 3000).2.2.2
      rfl rfl (by norm_num)⟩

/-! ### Panel bitmap (src/main.py lines 147-153) -/

/-- The `message_panel` list comprehension (src/main.py lines 147-150):
one `"1"`/`"0"` string per configured sensor, in configured order. -/
def message_panel (sensors : List (String × String))
    (active_alert_macs : Finset String) : List String :=
  sensors.map (fun s => if s.1 ∈ active_alert_macs then "1" else "0")

/-- `message_panel_str = "[" + ",".join(message_panel) + "]"`
(src/main.py line 151): the exact string handed to
`uploader.upload_status_panel`. -/
def message_panel_str (sensors : List (String × String))
    (active_alert_macs : Finset String) : String :=
  "[" ++ String.intercalate "," (message_panel sensors active_alert_macs) ++ "]"

/-- The cycle's panel-sink hand-off (src/main.py lines 132, 147-153):
`upload_status_panel` is called only inside `if alerts_to_send:`, with
the bitmap rendered from the post-cycle `active_alert_macs`. -/
def cyclePanelUpload (sensors : List (String × String)) (cfg : AlarmCfg)
    (now : ℚ) (readings : List (String × ℚ)) (st : AlarmSt) :
    Option String :=
  let r := processReadings cfg now readings st
  if r.2.isEmpty then none
  else some (message_panel_str sensors r.1.active_alert_macs)

/-- Characterisation of `String.intercalate.go` at the character level. -/
theorem intercalate_go_data (sep : String) (l : List String) (acc : String) :
    (String.intercalate.go acc sep l).data
      = acc.data ++ l.flatMap (fun x => sep.data ++ x.data) := by
  induction l generalizing acc with
  | nil => simp [String.intercalate.go]
  | cons a as ih =>
      simp [String.intercalate.go, ih]

/-- Interspersing commas is the same as flat-mapping pairs after the
head. -/
theorem intersperse_comma_eq_flatMap (c : Char) (cs : List Char) :
    List.intersperse ',' (c :: cs) = c :: cs.flatMap (fun d => [',', d]) := by
  induction cs generalizing c with
  | nil => rfl
  | cons d ds ih => simp [List.intersperse_cons₂, ih d]

/-- `",".join` over a list of single-character strings produces exactly
those characters interspersed with commas. -/
theorem intercalate_comma_bits (l : List Char) :
    (String.intercalate "," (l.map (fun c => String.singleton c))).data
      = List.intersperse ',' l := by
  cases l with
  | nil => rfl
  | cons c cs =>
      simp only [List.map_cons, String.intercalate, intercalate_go_data]
      rw [intersperse_comma_eq_flatMap, List.flatMap_map]
      simp [String.singleton]

/-- A two-device configured sensor list, in configured order. -/
def sensorsTwo : List (String × String) :=
  [("AA", "sensor A"), ("BB", "sensor B")]

/-- C5 counterexample: with two configured devices and "AA" alerting,
the string handed to the panel sink is `"[1,0]"` — five characters
including `'['`, `','` and `']'` — not a two-character `'0'`/`'1'`
string as the claim states (src/main.py line 151 wraps the flags in
brackets and joins them with commas). -/
theorem panel_string_has_brackets_and_commas :
    message_panel_str sensorsTwo {"AA"} = "[1,0]" ∧
    (message_panel_str sensorsTwo {"AA"}).data.length = 5 ∧
    sensorsTwo.length = 2 ∧
    '[' ∈ (message_panel_str sensorsTwo {"AA"}).data ∧
    ¬('[' = '0' ∨ '[' = '1') := by
  refine ⟨by decide, by decide, by decide, by decide, by decide⟩

/-- C5 (amended): the string handed to the panel-bitmap sink consists of
one `'0'`/`'1'` flag per configured device (`'1'` iff that device is in
the active-alert set), in configured device-list order, but the flags
are joined with commas and the whole is wrapped in square brackets. -/
theorem panel_string_characters (sensors : List (String × String))
    (active : Finset String) :
    (message_panel_str sensors active).data
      = '[' :: (List.intersperse ','
          (sensors.map (fun s => if s.1 ∈ active then '1' else '0')) ++ [']']) := by
  have hmp : message_panel sensors active
      = (sensors.map (fun s => if s.1 ∈ active then '1' else '0')).map
          (fun c => String.singleton c) := by
    induction sensors with
    | nil => rfl
    | cons s ss ih =>
        simp only [message_panel, List.map_cons] at ih ⊢
        rw [ih]
        by_cases h : s.1 ∈ active <;> simp [h] <;> apply String.ext <;> simp
  unfold message_panel_str
  rw [hmp]
  have h2 := intercalate_comma_bits
    (sensors.map (fun s => if s.1 ∈ active then '1' else '0'))
  simp only [String.data_append, h2]
  rfl

/-- In a cycle where every reading is in range (and the alarm is
active), the fold over readings emits no alert, only shrinks the
active-alert set, and removes every read MAC from it. -/
theorem processReadings_all_in_range (cfg : AlarmCfg) (now : ℚ)
    (readings : List (String × ℚ)) (st : AlarmSt)
    (hact : cfg.active_alarm = true)
    (hin : ∀ r ∈ readings, r.2 ≤ cfg.max_alert_threshold ∧
            cfg.min_alert_threshold ≤ r.2) :
    (processReadings cfg now readings st).2 = [] ∧
    (processReadings cfg now readings st).1.active_alert_macs
        ⊆ st.active_alert_macs ∧
    ∀ r ∈ readings,
      r.1 ∉ (processReadings cfg now readings st).1.active_alert_macs := by
  induction readings generalizing st with
  | nil => exact ⟨rfl, Finset.Subset.refl _, by simp⟩
  | cons r rest ih =>
      obtain ⟨mac, temp⟩ := r
      have hr := hin (mac, temp) (List.mem_cons_self _ _)
      have hstep := alarmStep_in_range cfg now mac temp st hact hr.1 hr.2
      have hrest : ∀ x ∈ rest, x.2 ≤ cfg.max_alert_threshold ∧
          cfg.min_alert_threshold ≤ x.2 :=
        fun x hx => hin x (List.mem_cons_of_mem _ hx)
      have ihx := ih (alarmStep cfg now mac temp st).1 hrest
      refine ⟨?_, ?_, ?_⟩
      · simp only [processReadings]
        rw [ihx.1]
        rw [hstep]
      · simp only [processReadings]
        refine Finset.Subset.trans ihx.2.1 ?_
        rw [hstep]
        exact Finset.erase_subset mac st.active_alert_macs
      · intro x hx
        rcases List.mem_cons.mp hx with hx1 | hx2
        · subst hx1
          simp only [processReadings]
          intro hmem
          have := ihx.2.1 hmem
          rw [hstep] at this
          exact Finset.not_mem_erase mac st.active_alert_macs this
        · simpa only [processReadings] using ihx.2.2 x hx2

/-- C6: the panel bitmap is handed to the sink only in cycles in which
at least one new alert event is emitted (`upload_status_panel` sits
inside `if alerts_to_send:`, src/main.py lines 132-153); in particular,
a cycle in which every reading is in range — so devices may leave the
active-alert set but nothing fires — performs no panel upload. -/
theorem panel_uploaded_only_with_alerts (sensors : List (String × String))
    (cfg : AlarmCfg) (now : ℚ) (readings : List (String × ℚ))
    (st : AlarmSt) :
    ((cyclePanelUpload sensors cfg now readings st).isSome
        ↔ (processReadings cfg now readings st).2 ≠ []) ∧
    (cfg.active_alarm = true →
     (∀ r ∈ readings, r.2 ≤ cfg.max_alert_threshold ∧
        cfg.min_alert_threshold ≤ r.2) →
     cyclePanelUpload sensors cfg now readings st = none ∧
     ∀ r ∈ readings,
       r.1 ∉ (processReadings cfg now readings st).1.active_alert_macs) := by
  constructor
  · unfold cyclePanelUpload
    by_cases h : (processReadings cfg now readings st).2.isEmpty
    · simp [h, List.isEmpty_iff.mp h]
    · have h2 : (processReadings cfg now readings st).2 ≠ [] := by
        simpa [List.isEmpty_iff] using h
      simp [h, h2]
  · intro hact hin
    have hall := processReadings_all_in_range cfg now readings st hact hin
    refine ⟨?_, hall.2.2⟩
    unfold cyclePanelUpload
    simp [hall.1]

/-- C6 witness: a cycle in which mid-alert device "AA" reads 50 °C (in
range): "AA" leaves the active-alert set, no alert fires, and no panel
upload happens. -/
theorem panel_uploaded_only_with_alerts_witness :
    cyclePanelUpload [("AA", "sensor A")] alarmCfgActive 200
        [("AA", 50)] stMidAlert = none ∧
    ∀ r ∈ [(("AA" : String), (50 : ℚ))],
      r.1 ∉ (processReadings alarmCfgActive 200 [("AA", 50)]
              stMidAlert).1.active_alert_macs :=
  (panel_uploaded_only_with_alerts [("AA", "sensor A")] alarmCfgActive 200
      [("AA", 50)] stMidAlert).2 rfl
    (by
      intro r hr
      simp only [List.mem_singleton] at hr
      subst hr
      exact ⟨by norm_num [alarmCfgActive], by norm_num [alarmCfgActive]⟩)

/-! ### Scheduler (src/main.py lines 157-199)

The wait-time block at the end of each cycle.  `active_macs` is the set
of MACs successfully read *this* cycle (line 80); the scan order of the
Python set is unspecified, so it is a list parameter here.  `round(x,2)`
is modelled as rounding `100 x` to the nearest integer (Python rounds
exact ties to even, Mathlib's `round` rounds them up; every property
proved below is insensitive to tie handling because of the `max _ 0.2`
floor). -/

def roundTo2 (q : ℚ) : ℚ :=
  (round (100 * q) : ℤ) / 100

/-- The `for mac in active_macs` deadline scan (src/main.py lines
168-194).  Returns `some d` when the loop breaks after adjusting the
delay to deadline `d`, and `none` when the loop either breaks without
adjusting (resend deadline not inside the window) or runs out of
devices — in both of which cases the base delay stands. -/
def schedScan (os ls : String → Option ℚ) (min_dur resend now next_sample : ℚ) :
    List String → Option ℚ
  | [] => none
  | mac :: rest =>
      match os mac with
      | none => schedScan os ls min_dur resend now next_sample rest
      | some t0 =>
          match ls mac with
          | none =>
              if now < t0 + min_dur ∧ t0 + min_dur ≤ next_sample then
                some (t0 + min_dur)
              else schedScan os ls min_dur resend now next_sample rest
          | some lastSent =>
              if now - lastSent < resend then
                if now < lastSent + resend ∧ lastSent + resend ≤ next_sample then
                  some (lastSent + resend)
                else none
              else schedScan os ls min_dur resend now next_sample rest

/-- The full delay computation of a cycle (src/main.py lines 157-199):
base delay `max(round(sampling_interval − elapsed, 2), 0.2)`, then the
deadline scan over the MACs read this cycle, shrinking the delay to
`max(deadline − now − 1, 0.2)` when the scan adjusts. -/
def schedulerDelay (active_macs : List String)
    (os ls : String → Option ℚ)
    (min_dur resend now sampling_interval elapsed : ℚ) : ℚ :=
  match schedScan os ls min_dur resend now
      (now + max (roundTo2 (sampling_interval - elapsed)) 0.2) active_macs with
  | some d => max (d - now - 1) 0.2
  | none => max (roundTo2 (sampling_interval - elapsed)) 0.2

/-- The deadline-coverage property asserted by the claim (and §4.5/§8 of
the spec), stated in the spec's words: for *every known device*, any
debounce deadline (breach start + `min_duration_after_start`, when no
alert has been sent) or resend deadline (last alert + `resend_interval`,
for alerting devices) that falls in the window `(now, now + base]` must
be overslept by at most the 1 s guard margin. -/
def specSchedulerDeadlineBound (known_macs : List String)
    (os ls : String → Option ℚ) (active_alert_macs : Finset String)
    (min_dur resend now base delay : ℚ) : Prop :=
  (∀ mac ∈ known_macs, ∀ t0, os mac = some t0 → ls mac = none →
      now < t0 + min_dur → t0 + min_dur ≤ now + base →
      delay ≤ (t0 + min_dur - now) + 1) ∧
  (∀ mac ∈ known_macs, mac ∈ active_alert_macs →
      ∀ lastSent, ls mac = some lastSent →
      now < lastSent + resend → lastSent + resend ≤ now + base →
      delay ≤ (lastSent + resend - now) + 1)

/-- Breach tracked for "AA" since time 730, no alert sent yet. -/
def osPendingAA : String → Option ℚ :=
  fun m => if m = "AA" then some 730 else none

/-- No alert ever sent. -/
def lsUnsent : String → Option ℚ :=
  fun _ => none

/-- Last alert for "AA" sent at time 1450. -/
def lsRecent : String → Option ℚ :=
  fun m => if m = "AA" then some 1450 else none

/-- `round(60.0, 2) = 60`. -/
theorem roundTo2_sixty : roundTo2 ((60 : ℚ) - 0) = 60 := by
  unfold roundTo2
  have h : (100 * ((60 : ℚ) - 0)) = ((6000 : ℤ) : ℚ) := by norm_num
  rw [h, round_intCast]
  norm_num

/-- The base delay of a fast cycle with `sampling_interval = 60`. -/
theorem base_sixty : max (roundTo2 ((60 : ℚ) - 0)) 0.2 = 60 := by
  rw [roundTo2_sixty]
  exact max_eq_left (by norm_num)

/-- C2 counterexample: device "AA" is known (configured) and mid-breach
with a pending debounce deadline at `t = 1030`, inside the window
`(1000, 1060]` — but it was not read this cycle, so `active_macs` is
empty and the scan (src/main.py line 168 iterates only `active_macs`)
never sees it: the scheduler returns the full base delay 60 s, which
overshoots the deadline (30 s away) by far more than the 1 s guard. -/
theorem scheduler_misses_unread_device_deadline :
    schedulerDelay [] osPendingAA lsUnsent 300 3600 1000 60 0 = 60 ∧
    ¬ specSchedulerDeadlineBound ["AA"] osPendingAA lsUnsent ∅
        300 3600 1000 60
        (schedulerDelay [] osPendingAA lsUnsent 300 3600 1000 60 0) := by
  have hd : schedulerDelay [] osPendingAA lsUnsent 300 3600 1000 60 0 = 60 := by
    have h0 : schedulerDelay [] osPendingAA lsUnsent 300 3600 1000 60 0
        = max (roundTo2 ((60 : ℚ) - 0)) 0.2 := rfl
    rw [h0, base_sixty]
  refine ⟨hd, ?_⟩
  rw [hd]
  intro hbound
  have h := hbound.1 "AA" (by simp) 730 rfl rfl (by norm_num) (by norm_num)
  norm_num at h

/-- A scan prefix whose devices have no tracked breach is skipped. -/
theorem schedScan_skip_none (os ls : String → Option ℚ)
    (min_dur resend now next_sample : ℚ) (pre rest : List String)
    (h : ∀ m ∈ pre, os m = none) :
    schedScan os ls min_dur resend now next_sample (pre ++ rest)
      = schedScan os ls min_dur resend now next_sample rest := by
  induction pre with
  | nil => rfl
  | cons m ms ih =>
      have hm : os m = none := h m (List.mem_cons_self _ _)
      simp only [List.cons_append, schedScan, hm]
      exact ih (fun x hx => h x (List.mem_cons_of_mem _ hx))

/-- C2 (amended): the returned delay never falls below the 0.2 s floor;
and the deadline guarantee holds only for the devices the scan actually
reaches: for the first device in the scanned (read-this-cycle) list with
a tracked breach, if no alert has been sent and its debounce deadline
falls in the window `(now, now + base]`, the returned delay exceeds the
time to that deadline by at most the 1 s guard margin; and if an alert
has been sent and its resend deadline (`last_alert_sent +
resend_interval`) falls in the window, the returned delay likewise
exceeds the time to that resend deadline by at most the 1 s guard
margin.  Devices not read this cycle, and devices after the scan's
early exit, receive no such guarantee (see the counterexample). -/
theorem scheduler_floor_and_first_scanned_deadline
    (active_macs : List String) (os ls : String → Option ℚ)
    (min_dur resend now sampling_interval elapsed : ℚ) :
    (0.2 : ℚ) ≤ schedulerDelay active_macs os ls min_dur resend now
        sampling_interval elapsed ∧
    (∀ pre mac post t0,
      active_macs = pre ++ mac :: post →
      (∀ m ∈ pre, os m = none) →
      os mac = some t0 → ls mac = none →
      now < t0 + min_dur →
      t0 + min_dur ≤ now + max (roundTo2 (sampling_interval - elapsed)) 0.2 →
      schedulerDelay active_macs os ls min_dur resend now
          sampling_interval elapsed ≤ (t0 + min_dur - now) + 1) ∧
    (∀ pre mac post t0 lastSent,
      active_macs = pre ++ mac :: post →
      (∀ m ∈ pre, os m = none) →
      os mac = some t0 → ls mac = some lastSent →
      now < lastSent + resend →
      lastSent + resend ≤ now + max (roundTo2 (sampling_interval - elapsed)) 0.2 →
      schedulerDelay active_macs os ls min_dur resend now
          sampling_interval elapsed ≤ (lastSent + resend - now) + 1) := by
  refine ⟨?_, ?_, ?_⟩
  · unfold schedulerDelay
    rcases hs : schedScan os ls min_dur resend now
        (now + max (roundTo2 (sampling_interval - elapsed)) 0.2) active_macs
      with _ | d
    · exact le_max_right _ _
    · exact le_max_right _ _
  · intro pre mac post t0 hsplit hpre hos hls hlo hhi
    unfold schedulerDelay
    rw [hsplit, schedScan_skip_none os ls min_dur resend now _ pre _ hpre]
    simp only [schedScan, hos, hls, if_pos (And.intro hlo hhi)]
    have h1 : t0 + min_dur - now - 1 ≤ (t0 + min_dur - now) + 1 := by linarith
    have h2 : (0.2 : ℚ) ≤ (t0 + min_dur - now) + 1 := by linarith
    exact max_le h1 h2
  · intro pre mac post t0 lastSent hsplit hpre hos hls hlo hhi
    unfold schedulerDelay
    rw [hsplit, schedScan_skip_none os ls min_dur resend now _ pre _ hpre]
    have hts : now - lastSent < resend := by linarith
    simp only [schedScan, hos, hls, if_pos hts, if_pos (And.intro hlo hhi)]
    have h1 : lastSent + resend - now - 1 ≤ (lastSent + resend - now) + 1 := by
      linarith
    have h2 : (0.2 : ℚ) ≤ (lastSent + resend - now) + 1 := by linarith
    exact max_le h1 h2

/-- C2 witness: one read device "AA" mid-breach with debounce deadline
1030 inside the window `(1000, 1060]`: the floor holds and the delay
stays within one second of the 30 s to the deadline; and the same
device after an alert at 1450, at `now = 5000`, has its resend deadline
5050 inside the window `(5000, 5060]`: the delay stays within one
second of the 50 s to that resend deadline. -/
theorem scheduler_floor_and_first_scanned_deadline_witness :
    (0.2 : ℚ) ≤ schedulerDelay ["AA"] osPendingAA lsUnsent 300 3600 1000 60 0 ∧
    schedulerDelay ["AA"] osPendingAA lsUnsent 300 3600 1000 60 0
      ≤ (730 + 300 - 1000) + 1 ∧
    schedulerDelay ["AA"] osPendingAA lsRecent 300 3600 5000 60 0
      ≤ (1450 + 3600 - 5000) + 1 :=
  ⟨(scheduler_floor_and_first_scanned_deadline ["AA"] osPendingAA lsUnsent
      300 3600 1000 60 0).1,
   (scheduler_floor_and_first_scanned_deadline ["AA"] osPendingAA lsUnsent
      300 3600 1000 60 0).2.1 [] "AA" [] 730 rfl (by simp) rfl rfl
      (by norm_num) (by rw [base_sixty]; norm_num),
   (scheduler_floor_and_first_scanned_deadline ["AA"] osPendingAA lsRecent
      300 3600 5000 60 0).2.2 [] "AA" [] 730 1450 rfl (by simp) rfl rfl
      (by norm_num) (by rw [base_sixty]; norm_num)⟩

/-! ### Battery model (src/ble_man/manager.py, battery_mv_to_percent,
lines 11-42)

Constants from the source: `V_min = 2400`, `Vmax_20C = 2960`,
`Vmax_n25C = 2650`, `alpha = 0.60`, `headroom_full = 6`.  The float
exponentiation `soc ** alpha` is modelled as real `rpow`; `int(round x)`
is modelled as `round : ℝ → ℤ` (Python rounds exact .5 ties to even,
`round` rounds them up; the argument is irrational except on a measure
zero set, and no verified property depends on tie handling). -/

/-- The temperature-compensated full-charge voltage `V_max(temp_c)`
(src/ble_man/manager.py lines 23-29). -/
def Vmax (temp_c : ℤ) : ℚ :=
  if temp_c ≥ 20 then 2960
  else if temp_c ≤ -25 then 2650
  else 2650 + (2960 - 2650) * (((temp_c : ℚ) + 25) / 45)

/-- `battery_mv_to_percent` (src/ble_man/manager.py lines 11-42). -/
noncomputable def battery_mv_to_percent (mv : ℤ) (temp_c : ℤ) : ℤ :=
  if (mv : ℚ) ≤ 2400 then 0
  else if (mv : ℚ) ≥ Vmax temp_c - 6 then 100
  else
    max 0 (min 100 (round ((100 : ℝ) *
      (((mv : ℝ) - 2400) / ((Vmax temp_c : ℝ) - 2400)) ^ (0.6 : ℝ))))

/-- `V_max` stays within its two reference endpoints. -/
theorem Vmax_bounds (temp_c : ℤ) : 2650 ≤ Vmax temp_c ∧ Vmax temp_c ≤ 2960 := by
  unfold Vmax
  split_ifs with h1 h2
  · exact ⟨by norm_num, le_refl _⟩
  · exact ⟨le_refl _, by norm_num⟩
  · push_neg at h1 h2
    have ha : (-24 : ℚ) ≤ (temp_c : ℚ) := by exact_mod_cast h2
    have hb : (temp_c : ℚ) ≤ 19 := by
      have : temp_c ≤ 19 := by omega
      exact_mod_cast this
    constructor <;> [nlinarith; nlinarith]

/-- C7: for every `mv` and `temp_c`, `battery_mv_to_percent` is an
integer in `[0, 100]`; it is 0 whenever `mv ≤ V_min = 2400` and 100
whenever `mv ≥ V_max(temp_c) − headroom`, where `V_max` is 2650 at or
below −25 °C, 2960 at or above 20 °C, and linearly interpolated in
between. -/
theorem battery_percent_range_and_saturation (mv temp_c : ℤ) :
    0 ≤ battery_mv_to_percent mv temp_c ∧
    battery_mv_to_percent mv temp_c ≤ 100 ∧
    (mv ≤ 2400 → battery_mv_to_percent mv temp_c = 0) ∧
    (Vmax temp_c - 6 ≤ (mv : ℚ) → battery_mv_to_percent mv temp_c = 100) ∧
    (temp_c ≤ -25 → Vmax temp_c = 2650) ∧
    (20 ≤ temp_c → Vmax temp_c = 2960) ∧
    (-25 < temp_c → temp_c < 20 →
      Vmax temp_c = 2650 + (2960 - 2650) * (((temp_c : ℚ) + 25) / 45)) := by
  have hV := Vmax_bounds temp_c
  refine ⟨?_, ?_, ?_, ?_, ?_, ?_, ?_⟩
  · unfold battery_mv_to_percent
    split_ifs with h1 h2
    · exact le_refl 0
    · norm_num
    · exact le_max_left 0 _
  · unfold battery_mv_to_percent
    split_ifs with h1 h2
    · norm_num
    · exact le_refl 100
    · exact max_le (by norm_num) (min_le_left 100 _)
  · intro hle
    unfold battery_mv_to_percent
    rw [if_pos (by exact_mod_cast hle)]
  · intro hge
    have hgt : ¬ (mv : ℚ) ≤ 2400 := by
      push_neg
      calc (2400 : ℚ) < 2650 - 6 := by norm_num
        _ ≤ Vmax temp_c - 6 := by linarith [hV.1]
        _ ≤ (mv : ℚ) := hge
    unfold battery_mv_to_percent
    rw [if_neg hgt, if_pos hge]
  · intro h
    unfold Vmax
    rw [if_neg (by omega), if_pos h]
  · intro h
    unfold Vmax
    rw [if_pos h]
  · intro hlo hhi
    unfold Vmax
    rw [if_neg (by omega), if_neg (by omega)]

/-- C7 witness: the theorem applied at concrete inputs — empty at
2000 mV, full at 3000 mV / 25 °C, and the three `V_max` regimes. -/
theorem battery_percent_range_and_saturation_witness :
    battery_mv_to_percent 2000 0 = 0 ∧
    battery_mv_to_percent 3000 25 = 100 ∧
    Vmax (-30) = 2650 ∧
    Vmax 25 = 2960 ∧
    Vmax 0 = 2650 + (2960 - 2650) * ((((0 : ℤ) : ℚ) + 25) / 45) :=
  ⟨(battery_percent_range_and_saturation 2000 0).2.2.1 (by norm_num),
   (battery_percent_range_and_saturation 3000 25).2.2.2.1
     (by norm_num [Vmax]),
   (battery_percent_range_and_saturation 0 (-30)).2.2.2.2.1 (by norm_num),
   (battery_percent_range_and_saturation 0 25).2.2.2.2.2.1 (by norm_num),
   (battery_percent_range_and_saturation 0 0).2.2.2.2.2.2 (by norm_num)
     (by norm_num)⟩

/-- C8: at fixed temperature, the battery percentage is monotone
non-decreasing in millivolts. -/
theorem battery_percent_monotone (temp_c mv1 mv2 : ℤ) (h : mv1 ≤ mv2) :
    battery_mv_to_percent mv1 temp_c ≤ battery_mv_to_percent mv2 temp_c := by
  have hV := Vmax_bounds temp_c
  have hq : (mv1 : ℚ) ≤ (mv2 : ℚ) := by exact_mod_cast h
  unfold battery_mv_to_percent
  by_cases h1 : (mv1 : ℚ) ≤ 2400
  · rw [if_pos h1]
    split_ifs with h2 h3
    · exact le_refl 0
    · norm_num
    · exact le_max_left 0 _
  · have h1b : ¬ (mv2 : ℚ) ≤ 2400 := fun hc => h1 (le_trans hq hc)
    rw [if_neg h1, if_neg h1b]
    by_cases h2 : (mv1 : ℚ) ≥ Vmax temp_c - 6
    · rw [if_pos h2, if_pos (le_trans h2 hq)]
    · rw [if_neg h2]
      by_cases h3 : (mv2 : ℚ) ≥ Vmax temp_c - 6
      · rw [if_pos h3]
        exact max_le (by norm_num) (min_le_left 100 _)
      · rw [if_neg h3]
        refine max_le_max (le_refl 0) (min_le_min (le_refl 100) ?_)
        have hden : (0 : ℝ) < (Vmax temp_c : ℝ) - 2400 := by
          have hc : (2650 : ℝ) ≤ (Vmax temp_c : ℝ) := by exact_mod_cast hV.1
          linarith
        have hm1 : (0 : ℝ) ≤ (mv1 : ℝ) - 2400 := by
          have hc : (2400 : ℚ) < (mv1 : ℚ) := not_le.mp h1
          have hc2 : (2400 : ℝ) < ((mv1 : ℚ) : ℝ) := by exact_mod_cast hc
          push_cast at hc2
          linarith
        have hnum : (mv1 : ℝ) - 2400 ≤ (mv2 : ℝ) - 2400 := by
          have hc : (mv1 : ℝ) ≤ (mv2 : ℝ) := by exact_mod_cast h
          linarith
        have hmono : ((mv1 : ℝ) - 2400) / ((Vmax temp_c : ℝ) - 2400)
            ≤ ((mv2 : ℝ) - 2400) / ((Vmax temp_c : ℝ) - 2400) :=
          (div_le_div_iff_of_pos_right hden).mpr hnum
        have hsoc1 : (0 : ℝ) ≤ ((mv1 : ℝ) - 2400) / ((Vmax temp_c : ℝ) - 2400) :=
          div_nonneg hm1 (le_of_lt hden)
        have hpow := Real.rpow_le_rpow hsoc1 hmono (by norm_num : (0 : ℝ) ≤ 0.6)
        have hmul : (100 : ℝ) *
            (((mv1 : ℝ) - 2400) / ((Vmax temp_c : ℝ) - 2400)) ^ (0.6 : ℝ)
            ≤ (100 : ℝ) *
            (((mv2 : ℝ) - 2400) / ((Vmax temp_c : ℝ) - 2400)) ^ (0.6 : ℝ) := by
          nlinarith [hpow]
        rw [round_eq, round_eq]
        exact Int.floor_le_floor (by linarith)

/-- C8 witness: the monotonicity theorem applied at 2000 ≤ 2300 mV at
0 °C. -/
theorem battery_percent_monotone_witness :
    battery_mv_to_percent 2000 0 ≤ battery_mv_to_percent 2300 0 :=
  battery_percent_monotone 0 2000 2300 (by norm_num)

/-! ### Battery-report hysteresis (src/ble_man/manager.py,
SensorManager._read_sensor_data, lines 208-220)

The tail of `_read_sensor_data`: given the computed `percent` for a
device, decide whether `battery_percent` is put into this cycle's
reading dict and whether `last_reported_battery[device_id]` is
updated.  The hysteresis constant in the source is the literal 5. -/

def batteryReportStep (last_reported_battery : String → Option ℤ)
    (device_id : String) (percent : ℤ) :
    Option ℤ × (String → Option ℤ) :=
  match last_reported_battery device_id with
  | none =>
      (some percent,
       fun d => if d = device_id then some percent else last_reported_battery d)
  | some last_percent =>
      if 5 ≤ |percent - last_percent| then
        (some percent,
         fun d => if d = device_id then some percent else last_reported_battery d)
      else
        (none, last_reported_battery)

/-- C9: a `battery_percent` value is included in the cycle's reading iff
no percentage was ever reported for the address or the absolute delta
from the last reported percentage is ≥ 5 (the hysteresis); the
per-address memory is set to the reported value exactly in reporting
cycles, is otherwise untouched, and other addresses are never
affected. -/
theorem battery_report_iff_first_or_hysteresis
    (mem : String → Option ℤ) (device_id : String) (percent : ℤ) :
    ((batteryReportStep mem device_id percent).1.isSome ↔
      (mem device_id = none ∨
       ∃ last_percent, mem device_id = some last_percent ∧
         5 ≤ |percent - last_percent|)) ∧
    ((batteryReportStep mem device_id percent).1.isSome →
      (batteryReportStep mem device_id percent).1 = some percent ∧
      (batteryReportStep mem device_id percent).2 device_id = some percent) ∧
    ((batteryReportStep mem device_id percent).1 = none →
      (batteryReportStep mem device_id percent).2 = mem) ∧
    (∀ d, d ≠ device_id →
      (batteryReportStep mem device_id percent).2 d = mem d) := by
  rcases hmem : mem device_id with _ | last_percent
  · refine ⟨?_, ?_, ?_, ?_⟩
    · simp [batteryReportStep, hmem]
    · simp [batteryReportStep, hmem]
    · simp [batteryReportStep, hmem]
    · intro d hd
      simp [batteryReportStep, hmem, hd]
  · by_cases hh : 5 ≤ |percent - last_percent|
    · refine ⟨?_, ?_, ?_, ?_⟩
      · simp [batteryReportStep, hmem, hh]
      · simp [batteryReportStep, hmem, hh]
      · simp [batteryReportStep, hmem, hh]
      · intro d hd
        simp [batteryReportStep, hmem, hh, hd]
    · refine ⟨?_, ?_, ?_, ?_⟩
      · simp [batteryReportStep, hmem, hh]
      · simp [batteryReportStep, hmem, hh]
      · simp [batteryReportStep, hmem, hh]
      · intro d hd
        simp [batteryReportStep, hmem, hh, hd]

/-- C9 witness: a first observation for "AA" at 50 % reports, updates
the memory for "AA", and leaves "BB" untouched. -/
theorem battery_report_iff_first_or_hysteresis_witness :
    (batteryReportStep (fun _ => none) "AA" 50).1 = some 50 ∧
    (batteryReportStep (fun _ => none) "AA" 50).2 "AA" = some 50 ∧
    (batteryReportStep (fun _ => none) "AA" 50).2 "BB" = none :=
  ⟨((battery_report_iff_first_or_hysteresis (fun _ => none) "AA" 50).2.1
      rfl).1,
   ((battery_report_iff_first_or_hysteresis (fun _ => none) "AA" 50).2.1
      rfl).2,
   (battery_report_iff_first_or_hysteresis (fun _ => none) "AA" 50).2.2.2
      "BB" (by decide)⟩

/-! ### Retrying connect (src/ble_man/manager.py,
SensorManager._connect_sensor, lines 148-163)

`for attempt in range(1, max_retries + 1)`: each attempt either yields a
connected client (return), yields a client whose `is_connected` is false
(fall through), or raises (caught by the `except`).  After every
non-returning attempt the loop sleeps `retry_delay` seconds; after the
loop the function returns `None`.  Exceptions never escape: this is
modelled by the function being total over an oracle of per-attempt
outcomes. -/

inductive ConnectOutcome where
  | success
  | notConnected
  | raised
  deriving DecidableEq

inductive ConnectEvent where
  | attempt (n : ℕ)
  | sleep (seconds : ℚ)
  deriving DecidableEq

/-- The attempt loop of `_connect_sensor`, from attempt number `k` with
`fuel` attempts remaining; returns the successful attempt number (the
model of the returned client) and the trace of attempts and sleeps. -/
def connectAttempts (outcomes : ℕ → ConnectOutcome) (retry_delay : ℚ) :
    ℕ → ℕ → Option ℕ × List ConnectEvent
  | _, 0 => (none, [])
  | k, fuel + 1 =>
      match outcomes k with
      | .success => (some k, [.attempt k])
      | _ =>
          let r := connectAttempts outcomes retry_delay (k + 1) fuel
          (r.1, .attempt k :: .sleep retry_delay :: r.2)

/-- `_connect_sensor` with `max_retries` attempts (source default 3) and
`retry_delay` seconds between them (source default 2). -/
def connect_sensor (outcomes : ℕ → ConnectOutcome) (max_retries : ℕ)
    (retry_delay : ℚ) : Option ℕ × List ConnectEvent :=
  connectAttempts outcomes retry_delay 1 max_retries

/-- The all-fail run of the attempt loop: no client, and each attempt is
followed by a `retry_delay` sleep. -/
theorem connectAttempts_all_fail (outcomes : ℕ → ConnectOutcome)
    (retry_delay : ℚ) (k fuel : ℕ)
    (hfail : ∀ i, k ≤ i → i < k + fuel → outcomes i ≠ .success) :
    connectAttempts outcomes retry_delay k fuel
      = (none, (List.range' k fuel).flatMap
          (fun i => [.attempt i, .sleep retry_delay])) := by
  induction fuel generalizing k with
  | zero => rfl
  | succ n ih =>
      have hk : outcomes k ≠ .success := hfail k (le_refl k) (by omega)
      have ihx := ih (k + 1) (fun i h1 h2 => hfail i (by omega) (by omega))
      rcases ho : outcomes k with _ | _ | _
      · exact absurd ho hk
      · simp [connectAttempts, ho, ihx, List.range']
      · simp [connectAttempts, ho, ihx, List.range']

/-- C10: if all `max_retries` connect attempts fail (raise or come back
unconnected), `_connect_sensor` returns "not connected" (`None`) without
any exception escaping — the model is total and its failure value is
`none` — and the trace consists of the attempts `1..max_retries`, each
followed by a `retry_delay`-second sleep, so the loop slept
`retry_delay` between consecutive attempts each time. -/
theorem connect_sensor_exhausts_retries (outcomes : ℕ → ConnectOutcome)
    (max_retries : ℕ) (retry_delay : ℚ)
    (hfail : ∀ i, 1 ≤ i → i ≤ max_retries → outcomes i ≠ .success) :
    connect_sensor outcomes max_retries retry_delay
      = (none, (List.range' 1 max_retries).flatMap
          (fun i => [.attempt i, .sleep retry_delay])) :=
  connectAttempts_all_fail outcomes retry_delay 1 max_retries
    (fun i h1 h2 => hfail i h1 (by omega))

/-- C10 witness: three always-raising attempts with the source defaults
(`max_retries = 3`, `retry_delay = 2`). -/
theorem connect_sensor_exhausts_retries_witness :
    connect_sensor (fun _ => .raised) 3 2
      = (none, [.attempt 1, .sleep 2, .attempt 2, .sleep 2,
                .attempt 3, .sleep 2]) :=
  Trans.trans
    (connect_sensor_exhausts_retries (fun _ => .raised) 3 2
      (fun i h1 h2 hc => ConnectOutcome.noConfusion hc))
    (by decide)

/-! ### Startup configuration fetch (src/main.py lines 56-74,
src/ble_man/uploader.py lines 29-39)

`run()` sleeps 10 s, calls `fetch_gateway_config()` exactly once,
applies the result through `on_config_update` (which ignores a falsy
result, keeping the `__init__` defaults), subscribes to pushed changes,
and then enters the cycle loop unconditionally.
`fetch_gateway_config` returns `None` both on a missing row and on an
exception, so the fetch is modelled as an `Option`-valued oracle indexed
by attempt number. -/

structure AppConfig where
  sampling_interval : ℚ
  email_recipients : List String
  active_alarm : Bool
  max_alert_threshold : ℚ
  min_alert_threshold : ℚ
  deriving DecidableEq

/-- The `__init__` defaults of `SensorMonitorApp` (src/main.py lines
36-42). -/
def defaultAppConfig : AppConfig :=
  ⟨60, [], false, 60, -40⟩

/-- A pushed/fetched gateway-config payload: a dict whose fields are
read with `.get(key, default)`. -/
structure GatewayConfigMsg where
  sampling_interval : Option ℚ
  email_recipients : Option (List String)
  active_alarm : Option Bool
  max_alert_threshold : Option ℚ
  min_alert_threshold : Option ℚ

/-- `on_config_update` (src/main.py lines 47-54): a falsy payload is
ignored; otherwise every field is overwritten, missing keys falling
back to the `.get` defaults. -/
def on_config_update (cur : AppConfig) (msg : Option GatewayConfigMsg) :
    AppConfig :=
  match msg with
  | none => cur
  | some g =>
      ⟨g.sampling_interval.getD 60,
       g.email_recipients.getD [],
       g.active_alarm.getD false,
       g.max_alert_threshold.getD 60,
       g.min_alert_threshold.getD (-40)⟩

/-- The outcome of the pre-loop startup sequence (src/main.py lines
66-74): the configuration in force when the first cycle begins, how
many fetches were performed before it, and the fixed startup sleep. -/
structure StartupResult where
  config : AppConfig
  fetch_attempts : ℕ
  initial_sleep : ℚ

/-- The startup sequence of `run()`: one 10-second sleep, one fetch,
one `on_config_update`, then the cycle loop starts. -/
def startupSequence (fetchResults : ℕ → Option GatewayConfigMsg) :
    StartupResult :=
  ⟨on_config_update defaultAppConfig (fetchResults 0), 1, 10⟩

/-- C4 counterexample: when every fetch fails, the startup still
performs exactly one fetch, obtains no configuration, and the first
cycle begins anyway with the `__init__` defaults — there is no retry
loop, contradicting the claim that the loop retries with backoff until
a fetch succeeds before the first cycle. -/
theorem startup_runs_first_cycle_without_config :
    (startupSequence (fun _ => none)).fetch_attempts = 1 ∧
    (startupSequence (fun _ => none)).config = defaultAppConfig ∧
    ¬ ∃ k < (startupSequence (fun _ => none)).fetch_attempts,
        (fun _ => (none : Option GatewayConfigMsg)) k ≠ none := by
  refine ⟨rfl, rfl, ?_⟩
  rintro ⟨k, hk, hne⟩
  exact hne rfl

/-- C4 (amended): before the first cycle the loop performs exactly one
configuration fetch (after a fixed 10 s startup sleep); if it fails the
`__init__` defaults are kept and the first sampling cycle begins anyway
— no inline retry/backoff exists — and if it succeeds the fetched
fields (with `.get` defaults for missing keys) are in force. -/
theorem startup_fetches_once_then_starts
    (fetchResults : ℕ → Option GatewayConfigMsg) :
    (startupSequence fetchResults).fetch_attempts = 1 ∧
    (startupSequence fetchResults).initial_sleep = 10 ∧
    (fetchResults 0 = none →
      (startupSequence fetchResults).config = defaultAppConfig) ∧
    (∀ g, fetchResults 0 = some g →
      (startupSequence fetchResults).config =
        ⟨g.sampling_interval.getD 60,
         g.email_recipients.getD [],
         g.active_alarm.getD false,
         g.max_alert_threshold.getD 60,
         g.min_alert_threshold.getD (-40)⟩) := by
  refine ⟨rfl, rfl, ?_, ?_⟩
  · intro h
    simp [startupSequence, on_config_update, h]
  · intro g h
    simp [startupSequence, on_config_update, h]

/-- A fully-populated pushed configuration payload. -/
def gMsgDemo : GatewayConfigMsg :=
  ⟨some 120, some [], some true, some 70, some (-30)⟩

/-- C4 witness: the amended theorem applied to an always-failing fetch
(defaults kept) and to a successful fetch of `gMsgDemo`. -/
theorem startup_fetches_once_then_starts_witness :
    (startupSequence (fun _ => none)).config = defaultAppConfig ∧
    (startupSequence (fun _ => some gMsgDemo)).config
      = ⟨120, [], true, 70, -30⟩ :=
  ⟨(startup_fetches_once_then_starts (fun _ => none)).2.2.1 rfl,
   (startup_fetches_once_then_starts (fun _ => some gMsgDemo)).2.2.2
      gMsgDemo rfl⟩
